import Mathlib

/-!
Verification of the gladiator arena combat and progression core
(backend/combat.py, backend/leveling.py, backend/gladiator.py and the
gladiator endpoints of backend/main.py) against its specification.

Python numerics are embedded as follows: machine integers are `Int`
(Python ints are unbounded); float arithmetic is idealized as exact
rational arithmetic over `Rat` where every quantity is rational
(combat damage and chance computations, with decimal literals read
exactly), and as exact real arithmetic over `Real` where the code
raises a number to a non-integer power (the fitted stamina and
experience curves, via `Real.rpow`). Python's `round` builtin rounds
half to even; `pyRound`/`pyRoundR` reproduce that. Python's `int(...)`
on a float truncates toward zero; `pyTrunc` reproduces that.
-/

/-- Python's builtin `round` to the nearest integer over exact rationals:
round half to even (banker's rounding). -/
def pyRound (q : ℚ) : ℤ :=
  if q - ⌊q⌋ = (1 : ℚ) / 2 then (if 2 ∣ ⌊q⌋ then ⌊q⌋ else ⌊q⌋ + 1) else round q

/-- Python's builtin `int(...)` applied to a float: truncation toward zero. -/
def pyTrunc (q : ℚ) : ℤ :=
  if q < 0 then -⌊-q⌋ else ⌊q⌋

/-- Python's builtin `round` over the reals (used where the code computes
non-integer powers): round half to even. -/
noncomputable def pyRoundR (x : ℝ) : ℤ :=
  if x - ⌊x⌋ = (1 : ℝ) / 2 then (if 2 ∣ ⌊x⌋ then ⌊x⌋ else ⌊x⌋ + 1) else round x

/-- The two sides a round outcome can name as the winner
(the strings "player" and "opponent" in round_info). -/
inductive Side where
  | player : Side
  | opponent : Side
deriving DecidableEq, Repr

/-- gladiator.py, class Character: the attribute set of a combatant.
All numeric attributes are Python ints. -/
structure Character where
  name : String
  race : String
  maxHealth : ℤ
  currentHealth : ℤ
  vitality : ℤ
  strength : ℤ
  dodge : ℤ
  initiative : ℤ
  weaponskill : ℤ
  stamina : ℤ
deriving DecidableEq, Repr

/-- gladiator.py, Character.take_damage: subtracts the damage from
current_health with no clamping and returns the damage dealt. -/
def Character.take_damage (c : Character) (damage : ℤ) : Character × ℤ :=
  ({ c with currentHealth := c.currentHealth - damage }, damage)

/-- gladiator.py, Character.heal: adds the amount, capped at max_health. -/
def Character.heal (c : Character) (amount : ℤ) : Character :=
  { c with currentHealth := min c.maxHealth (c.currentHealth + amount) }

/-- gladiator.py, Character.is_alive: current_health strictly positive. -/
def Character.is_alive (c : Character) : Bool :=
  decide (0 < c.currentHealth)

/-- gladiator.py, class Gladiator(Character): adds the progression state. -/
structure Gladiator extends Character where
  experience : ℤ
  level : ℤ
  gold : ℤ
  wins : ℤ
  losses : ℤ
  stat_points : ℤ
deriving DecidableEq, Repr

/-- combat.py, Combat.calculate_attack_damage. The three random draws are
passed explicitly: mult is random.uniform(0.85, 1.15), hitRoll is
random.random(), critRoll is random.randint(1, 100). Returns
(damage, is_critical_hit); damage 0 means a miss. -/
def calculate_attack_damage (attacker defender : Character)
    (mult hitRoll : ℚ) (critRoll : ℤ) : ℤ × Bool :=
  let baseDamage0 : ℚ := (attacker.strength : ℚ) * (0.088 : ℚ)
  let baseDamage1 : ℤ := pyRound (baseDamage0 * mult)
  let baseDamage : ℤ :=
    if baseDamage1 = 0 ∧ 0 < attacker.strength then 1 else baseDamage1
  let hitRating : ℚ := max 1 (attacker.weaponskill : ℚ)
  let dodgeRating : ℚ := max 1 ((defender.dodge : ℚ) * (0.25 : ℚ))
  let hitChance0 : ℚ := hitRating / (hitRating + dodgeRating)
  let hitChance : ℚ := max (0.05 : ℚ) (min (0.95 : ℚ) hitChance0)
  if hitRoll > hitChance then (0, false)
  else if critRoll ≤ 5 then (pyTrunc ((baseDamage : ℚ) * (1.5 : ℚ)), true)
  else (baseDamage, false)

/-- combat.py, Combat._required_stamina_for_round: 0 through round 2, then
the fitted power curve max(0, int(round(a * n ** b))). -/
noncomputable def required_stamina_for_round (round_number : ℤ) : ℤ :=
  if round_number ≤ 2 then 0
  else
    max 0 (pyRoundR ((1.3081954270168985 : ℝ) *
      (round_number : ℝ) ^ (1.4465293529691468 : ℝ)))

/-- combat.py, Combat._drain_stamina_end_of_round lines 37-39: the
end-of-round drain, max(0, required_now - required_prev) for the round
the session is on. -/
noncomputable def stamina_drain (round_number : ℤ) : ℤ :=
  let requiredNow := required_stamina_for_round round_number
  let requiredPrev := required_stamina_for_round (round_number - 1)
  max 0 (requiredNow - requiredPrev)

/-- combat.py, Combat.__init__: the per-fight mutable state — the two
combatants, the round counter, the battle log and the two session stamina
pools seeded from each combatant's stamina attribute. -/
structure CombatState where
  player : Character
  opponent : Character
  round : ℤ
  battle_log : List String
  player_stamina : ℤ
  opponent_stamina : ℤ
deriving DecidableEq, Repr

/-- combat.py, Combat.__init__: round 0, empty log, pools clamped to ≥ 0. -/
def Combat.init (player opponent : Character) : CombatState :=
  { player := player, opponent := opponent, round := 0, battle_log := [],
    player_stamina := max 0 player.stamina,
    opponent_stamina := max 0 opponent.stamina }

/-- combat.py, execute_round's round_info dict: round number, ordered
action log, and winner ("player" | "opponent" | None). -/
structure RoundInfo where
  round : ℤ
  actions : List String
  winner : Option Side
deriving DecidableEq, Repr

/-- combat.py, Combat._drain_stamina_end_of_round: drains both session
stamina pools (clamped at 0), then checks the player's pool first and the
opponent's second; a pool at ≤ 0 ends the fight with the other side as
winner. Returns the updated session, the updated round_info and whether
the fight ended. -/
noncomputable def drain_stamina_end_of_round (s : CombatState) (ri : RoundInfo) :
    CombatState × RoundInfo × Bool :=
  let drain := stamina_drain s.round
  let ps := max 0 (s.player_stamina - drain)
  let os := max 0 (s.opponent_stamina - drain)
  let s1 := { s with player_stamina := ps, opponent_stamina := os }
  let ri1 := { ri with actions := ri.actions ++
    [((("Stamina drain " ++ toString drain) ++ (": " ++ s.player.name) ++
      ("=" ++ toString ps)) ++ ((", " ++ s.opponent.name) ++ ("=" ++ toString os)))] }
  if ps ≤ 0 then
    (s1, { ri1 with
      actions := ri1.actions ++ [s.player.name ++ (" collapses from exhaustion!")],
      winner := some Side.opponent }, true)
  else if os ≤ 0 then
    (s1, { ri1 with
      actions := ri1.actions ++ [s.opponent.name ++ (" collapses from exhaustion!")],
      winner := some Side.player }, true)
  else (s1, ri1, false)

/-- combat.py, execute_round: writes the first attacker and first defender
back into the player/opponent slots according to who went first. -/
def writeBack (s : CombatState) (rnd : ℤ) (playerFirst : Bool)
    (firstAttacker firstDefender : Character) : CombatState :=
  if playerFirst then
    { s with round := rnd, player := firstAttacker, opponent := firstDefender }
  else
    { s with round := rnd, player := firstDefender, opponent := firstAttacker }

/-- combat.py, execute_round: the action string for one attack. -/
def attackAction (attacker defender : Character) (damage : ℤ) (critical : Bool) :
    String :=
  if damage = 0 then attacker.name ++ (" MISSES!")
  else
    ((attacker.name ++ (" hits " ++ defender.name)) ++
      ((" for " ++ toString damage) ++
        (" damage" ++ (if critical then " (CRITICAL!)" else ""))))

/-- combat.py, execute_round: the random draws one round consumes, in
program order — the turn-order roll, then (multiplier, hit roll, crit roll)
for the first attack and for the second. -/
structure RoundDraws where
  firstRoll : ℚ
  mult1 : ℚ
  hitRoll1 : ℚ
  critRoll1 : ℤ
  mult2 : ℚ
  hitRoll2 : ℚ
  critRoll2 : ℤ
deriving DecidableEq, Repr

/-- combat.py, Combat.execute_round: increments the round counter, draws
turn order from the clamped initiative-based chance, resolves up to two
attacks with early termination on death, then applies the end-of-round
stamina drain. Returns the updated session and the round_info. -/
noncomputable def execute_round (s : CombatState) (d : RoundDraws) :
    CombatState × RoundInfo :=
  let rnd := s.round + 1
  let initDiff : ℤ := s.player.initiative - s.opponent.initiative
  let firstChance : ℚ :=
    max (0.05 : ℚ) (min (0.95 : ℚ) ((0.5 : ℚ) + (initDiff : ℚ) * (0.045 : ℚ)))
  let playerFirst : Bool := decide (d.firstRoll < firstChance)
  let fa := if playerFirst then s.player else s.opponent
  let fd := if playerFirst then s.opponent else s.player
  let a1 := calculate_attack_damage fa fd d.mult1 d.hitRoll1 d.critRoll1
  let td1 := Character.take_damage fd a1.1
  let fd1 := if a1.1 = 0 then fd else td1.1
  let act1 := attackAction fa fd a1.1 a1.2
  if (!fd1.is_alive) then
    (writeBack s rnd playerFirst fa fd1,
     { round := rnd, actions := [act1],
       winner := some (if playerFirst then Side.player else Side.opponent) })
  else
    let a2 := calculate_attack_damage fd1 fa d.mult2 d.hitRoll2 d.critRoll2
    let td2 := Character.take_damage fa a2.1
    let fa1 := if a2.1 = 0 then fa else td2.1
    let act2 := attackAction fd1 fa a2.1 a2.2
    if (!fa1.is_alive) then
      (writeBack s rnd playerFirst fa1 fd1,
       { round := rnd, actions := [act1, act2],
         winner := some (if playerFirst then Side.opponent else Side.player) })
    else
      let s2 := writeBack s rnd playerFirst fa1 fd1
      let dr := drain_stamina_end_of_round s2
        { round := rnd, actions := [act1, act2], winner := none }
      if dr.2.2 then (dr.1, dr.2.1) else (dr.1, { dr.2.1 with winner := none })

/-- main.py, execute_combat_round (POST /combat/round): raises HTTP 400 when
no combat session exists for the player token; otherwise resolves one round
against the live session and appends the round to the battle log. The
session itself carries no terminal flag and is not checked for one. -/
noncomputable def execute_combat_round (combat : Option CombatState)
    (d : RoundDraws) : Except String (CombatState × RoundInfo) :=
  match combat with
  | none => .error ("No active combat. Please start a new combat.")
  | some s =>
    let r := execute_round s d
    let s1 := { r.1 with battle_log :=
      (r.1.battle_log ++ [("Round " ++ toString r.2.round)]) ++ r.2.actions }
    .ok (s1, r.2)

/-- leveling.py, xp_to_next: XP required to advance from the given level,
max(1, int(round(coeff * level ** power))) after clamping the level to ≥ 1. -/
noncomputable def xp_to_next (level : ℤ) : ℤ :=
  let l : ℤ := if level < 1 then 1 else level
  max 1 (pyRoundR ((57.70789704047412 : ℝ) * (l : ℝ) ^ (1.466387695400268 : ℝ)))

/-- leveling.py, apply_experience lines 37-43: the while-loop that subtracts
each level requirement and increments the level until the remaining
experience is below the requirement. Returns the final level, the remaining
experience, and the number of levels gained. -/
noncomputable def levelLoop (level exp : ℤ) : ℤ × ℤ × ℕ :=
  if h : exp < xp_to_next level then (level, exp, 0)
  else
    let r := levelLoop (level + 1) (exp - xp_to_next level)
    (r.1, r.2.1, r.2.2 + 1)
termination_by exp.toNat
decreasing_by
  have h1 : 1 ≤ xp_to_next level := by unfold xp_to_next; exact le_max_left _ _
  omega

/-- leveling.py, apply_experience lines 37-43 with explicit fuel: runs the
same while-loop but gives up (returns none) when the fuel runs out.
Used to state that the loop terminates within a bounded number of
iterations. -/
noncomputable def levelLoopFuel : ℕ → ℤ → ℤ → Option (ℤ × ℤ × ℕ)
  | 0, _, _ => none
  | fuel + 1, level, exp =>
    if exp < xp_to_next level then some (level, exp, 0)
    else
      match levelLoopFuel fuel (level + 1) (exp - xp_to_next level) with
      | none => none
      | some r => some (r.1, r.2.1, r.2.2 + 1)

/-- leveling.py, apply_experience's returned dict. -/
structure ApplyExpResult where
  levels_gained : ℤ
  xp_to_next : ℤ
deriving DecidableEq, Repr

/-- leveling.py, apply_experience: non-positive amounts are a no-op;
otherwise adds the amount to experience, runs the level-up loop, and grants
levels_gained * 20 stat points when any level was gained. Returns the
mutated gladiator together with the result dict. -/
noncomputable def apply_experience (g : Gladiator) (amount : ℤ) :
    Gladiator × ApplyExpResult :=
  if amount ≤ 0 then (g, { levels_gained := 0, xp_to_next := xp_to_next g.level })
  else
    let g1 := { g with experience := g.experience + amount }
    let r := levelLoop g1.level g1.experience
    let g2 := { g1 with level := r.1, experience := r.2.1 }
    let g3 := if 0 < r.2.2 then
        { g2 with stat_points := g2.stat_points + (r.2.2 : ℤ) * 20 }
      else g2
    (g3, { levels_gained := (r.2.2 : ℤ), xp_to_next := xp_to_next r.1 })

/-- main.py (models.py StatAllocation): the six per-stat point counts of a
stat-allocation request. -/
structure StatAllocation where
  health : ℤ
  strength : ℤ
  dodge : ℤ
  initiative : ℤ
  weaponskill : ℤ
  stamina : ℤ
deriving DecidableEq, Repr

/-- main.py, allocate_stat_points (POST /gladiator/allocate), the pure state
transformation after the gladiator is loaded: rejects negative entries, a
non-positive total, or a total above the unspent stat points; a positive
health allocation raises vitality, recomputes max_health as
1 + floor(vitality * 1.5) and shifts current_health by the max_health
delta; the other five stats are added directly and the total is deducted. -/
def allocate_stat_points (g : Gladiator) (a : StatAllocation) :
    Except String Gladiator :=
  if a.health < 0 ∨ a.strength < 0 ∨ a.dodge < 0 ∨ a.initiative < 0 ∨
      a.weaponskill < 0 ∨ a.stamina < 0 then
    .error ("Stat points cannot be negative")
  else
    let total := a.health + a.strength + a.dodge + a.initiative +
      a.weaponskill + a.stamina
    if total ≤ 0 then .error ("No stat points allocated")
    else if g.stat_points < total then .error ("Not enough stat points")
    else
      let g1 :=
        if 0 < a.health then
          let oldMaxHealth := g.maxHealth
          let v := g.vitality + a.health
          let m := 1 + ⌊(v : ℚ) * (1.5 : ℚ)⌋
          { g with
            vitality := v,
            maxHealth := m,
            currentHealth := g.currentHealth + (m - oldMaxHealth) }
        else g
      .ok { g1 with
        strength := g1.strength + a.strength,
        dodge := g1.dodge + a.dodge,
        initiative := g1.initiative + a.initiative,
        weaponskill := g1.weaponskill + a.weaponskill,
        stamina := g1.stamina + a.stamina,
        stat_points := g1.stat_points - total }

/-- main.py, train_gladiator (POST /gladiator/train), the pure state
transformation after the gladiator is loaded: costs 10 gold, raises
strength/dodge/weaponskill by 1 and vitality by 3, recomputes max_health
as 1 + floor(vitality * 1.5), sets current_health to max_health (full
heal), then applies 10 experience. -/
noncomputable def train_gladiator (g : Gladiator) : Except String Gladiator :=
  if g.gold < 10 then .error ("Not enough gold to train")
  else
    let g1 := { g with
      gold := g.gold - 10,
      strength := g.strength + 1,
      dodge := g.dodge + 1,
      weaponskill := g.weaponskill + 1,
      vitality := g.vitality + 3 }
    let g2 := { g1 with maxHealth := 1 + ⌊(g1.vitality : ℚ) * (1.5 : ℚ)⌋ }
    let g3 := { g2 with currentHealth := g2.maxHealth }
    .ok (apply_experience g3 10).1

/-- The combatants of the spec's forced-critical damage scenario:
attacker strength 30 and weaponskill 100. -/
def atkC1 : Character :=
  { name := "Attacker", race := "Human", maxHealth := 20, currentHealth := 20,
    vitality := 0, strength := 30, dodge := 0, initiative := 0,
    weaponskill := 100, stamina := 0 }

/-- The defender of the forced-critical damage scenario: dodge 1. -/
def defC1 : Character :=
  { name := "Defender", race := "Human", maxHealth := 20, currentHealth := 20,
    vitality := 0, strength := 0, dodge := 1, initiative := 0,
    weaponskill := 100, stamina := 0 }

/-- A player combatant that hits for 3 damage every round (strength 30,
weaponskill 100, no crit): used to drive a session to a terminal round. -/
def pC2 : Character :=
  { name := "P", race := "Human", maxHealth := 20, currentHealth := 20,
    vitality := 0, strength := 30, dodge := 1, initiative := 0,
    weaponskill := 100, stamina := 10 }

/-- An opponent with 3 health that dies to the first hit. -/
def oC2 : Character :=
  { name := "O", race := "Orc", maxHealth := 3, currentHealth := 3,
    vitality := 0, strength := 0, dodge := 1, initiative := 0,
    weaponskill := 1, stamina := 10 }

/-- A fresh session between pC2 and oC2. -/
def sC2 : CombatState :=
  { player := pC2, opponent := oC2, round := 0, battle_log := [],
    player_stamina := 10, opponent_stamina := 10 }

/-- Draws that make the player go first, hit without a critical, and the
opponent (if it got to act) hit without a critical. -/
def dC2 : RoundDraws :=
  { firstRoll := 0, mult1 := 1, hitRoll1 := 0, critRoll1 := 100,
    mult2 := 1, hitRoll2 := 0, critRoll2 := 100 }

/-- A combatant with 3 of 10 health, about to take 5 damage. -/
def chC3 : Character :=
  { name := "C", race := "Human", maxHealth := 10, currentHealth := 3,
    vitality := 6, strength := 5, dodge := 5, initiative := 5,
    weaponskill := 5, stamina := 5 }

/-- A combatant with 5 of 10 health, for the in-bounds mutations. -/
def chC3w : Character :=
  { name := "W", race := "Human", maxHealth := 10, currentHealth := 5,
    vitality := 6, strength := 5, dodge := 5, initiative := 5,
    weaponskill := 5, stamina := 5 }

/-- A damaged gladiator (5 of 16 health, vitality 10) with gold to train:
training should preserve the missing-health gap if the claim held. -/
def gC4 : Gladiator :=
  { name := "G", race := "Human", maxHealth := 16, currentHealth := 5,
    vitality := 10, strength := 7, dodge := 3, initiative := 2,
    weaponskill := 4, stamina := 6, experience := 0, level := 1,
    gold := 100, wins := 0, losses := 0, stat_points := 0 }

/-- A consistent gladiator (16 of 16 health, vitality 10) with 5 unspent
stat points, used to exercise the health-allocation branch. -/
def gC4w : Gladiator :=
  { name := "H", race := "Human", maxHealth := 16, currentHealth := 16,
    vitality := 10, strength := 7, dodge := 3, initiative := 2,
    weaponskill := 4, stamina := 6, experience := 0, level := 1,
    gold := 100, wins := 0, losses := 0, stat_points := 5 }

/-- An allocation that puts 2 points into health. -/
def aC4w : StatAllocation :=
  { health := 2, strength := 0, dodge := 0, initiative := 0,
    weaponskill := 0, stamina := 0 }

/-- A progression state at level 1 with no experience. -/
def gC5 : Gladiator :=
  { name := "L", race := "Human", maxHealth := 16, currentHealth := 16,
    vitality := 10, strength := 7, dodge := 3, initiative := 2,
    weaponskill := 4, stamina := 6, experience := 0, level := 1,
    gold := 100, wins := 0, losses := 0, stat_points := 0 }

/-- The session of the spec's double-exhaustion scenario: both stamina
pools at 1 with the round counter already advanced to round 6. -/
def sC6 : CombatState :=
  { player := pC2, opponent := oC2, round := 6, battle_log := [],
    player_stamina := 1, opponent_stamina := 1 }

/-- An in-flight round_info for round 6 with no winner yet. -/
def riC6 : RoundInfo :=
  { round := 6, actions := [], winner := none }

/-- Rounding (half-up) is monotone. -/
theorem round_mono_of_le {x y : ℝ} (h : x ≤ y) : round x ≤ round y := by
  rw [round_eq, round_eq]
  exact Int.floor_le_floor (by linarith)

/-- Half-to-even rounding agrees with half-up rounding except exactly on
the even half-points, where it is one less. -/
theorem pyRoundR_cases (x : ℝ) :
    pyRoundR x = round x ∨
      (pyRoundR x = ⌊x⌋ ∧ round x = ⌊x⌋ + 1 ∧ x = (⌊x⌋ : ℝ) + 1 / 2 ∧ 2 ∣ ⌊x⌋) := by
  unfold pyRoundR
  by_cases h : x - ⌊x⌋ = (1 : ℝ) / 2
  · have hx : x = (⌊x⌋ : ℝ) + 1 / 2 := by linarith
    have hr : round x = ⌊x⌋ + 1 := by
      have hs : x + 1 / 2 = ((⌊x⌋ + 1 : ℤ) : ℝ) := by push_cast; linarith
      rw [round_eq, hs, Int.floor_intCast]
    by_cases h2 : 2 ∣ ⌊x⌋
    · right
      rw [if_pos h, if_pos h2]
      exact ⟨rfl, hr, hx, h2⟩
    · left
      rw [if_pos h, if_neg h2, hr]
  · left
    rw [if_neg h]

/-- Half-to-even rounding never overshoots by more than a half. -/
theorem pyRoundR_le_add_half (x : ℝ) : (pyRoundR x : ℝ) ≤ x + 1 / 2 := by
  have hb := abs_sub_round x
  rw [abs_le] at hb
  rcases pyRoundR_cases x with h | ⟨h, _, hx, _⟩
  · rw [h]; linarith [hb.1]
  · rw [h]; linarith [Int.floor_le x]

/-- Half-to-even rounding never undershoots by more than a half. -/
theorem sub_half_le_pyRoundR (x : ℝ) : x - 1 / 2 ≤ (pyRoundR x : ℝ) := by
  have hb := abs_sub_round x
  rw [abs_le] at hb
  rcases pyRoundR_cases x with h | ⟨h, _, hx, _⟩
  · rw [h]; linarith [hb.2]
  · rw [h]; linarith

/-- Half-to-even rounding is monotone. -/
theorem pyRoundR_mono {x y : ℝ} (hxy : x ≤ y) : pyRoundR x ≤ pyRoundR y := by
  rcases pyRoundR_cases x with hx | ⟨hx, hrx, hfx, _⟩
  · rcases pyRoundR_cases y with hy | ⟨hy, hry, hfy, _⟩
    · rw [hx, hy]
      exact round_mono_of_le hxy
    · rw [hx, hy]
      rcases eq_or_lt_of_le hxy with heq | hlt
      · exfalso
        have h1 : pyRoundR x = pyRoundR y := by rw [heq]
        have h2 : round x = round y := by rw [heq]
        rw [hx, hy] at h1
        omega
      · rw [round_eq]
        have h3 : x + 1 / 2 < ((⌊y⌋ + 1 : ℤ) : ℝ) := by
          rw [hfy] at hlt; push_cast; linarith
        have h4 := Int.floor_lt.mpr h3
        omega
  · have h1 : round y - 1 ≤ pyRoundR y := by
      rcases pyRoundR_cases y with hy | ⟨hy, hry, _, _⟩
      · omega
      · omega
    have h2 : round x ≤ round y := round_mono_of_le hxy
    omega

/-- Numeric lower bound for the stamina curve at round 6:
6 to the fitted exponent is at least 13. -/
theorem six_rpow_lb : (13 : ℝ) ≤ (6 : ℝ) ^ (1.4465293529691468 : ℝ) := by
  have h1 : (6 : ℝ) ^ ((36 : ℝ) / 25) ≤ (6 : ℝ) ^ (1.4465293529691468 : ℝ) :=
    Real.rpow_le_rpow_of_exponent_le (by norm_num) (by norm_num)
  refine le_trans ?_ h1
  have h2 : ((6 : ℝ) ^ (36 : ℕ)) ^ ((1 : ℝ) / 25) = (6 : ℝ) ^ ((36 : ℝ) / 25) := by
    rw [← Real.rpow_natCast 6 36, ← Real.rpow_mul (by norm_num : (0 : ℝ) ≤ 6)]
    norm_num
  have h3 : ((13 : ℝ) ^ (25 : ℕ)) ^ ((1 : ℝ) / 25) = (13 : ℝ) := by
    rw [← Real.rpow_natCast 13 25, ← Real.rpow_mul (by norm_num : (0 : ℝ) ≤ 13)]
    norm_num
  rw [← h2, ← h3]
  exact Real.rpow_le_rpow (by positivity) (by norm_num) (by norm_num)

/-- Numeric upper bound for the stamina curve at round 5:
5 to the fitted exponent is at most 11. -/
theorem five_rpow_ub : (5 : ℝ) ^ (1.4465293529691468 : ℝ) ≤ 11 := by
  have h1 : (5 : ℝ) ^ (1.4465293529691468 : ℝ) ≤ (5 : ℝ) ^ ((29 : ℝ) / 20) :=
    Real.rpow_le_rpow_of_exponent_le (by norm_num) (by norm_num)
  refine le_trans h1 ?_
  have h2 : ((5 : ℝ) ^ (29 : ℕ)) ^ ((1 : ℝ) / 20) = (5 : ℝ) ^ ((29 : ℝ) / 20) := by
    rw [← Real.rpow_natCast 5 29, ← Real.rpow_mul (by norm_num : (0 : ℝ) ≤ 5)]
    norm_num
  have h3 : ((11 : ℝ) ^ (20 : ℕ)) ^ ((1 : ℝ) / 20) = (11 : ℝ) := by
    rw [← Real.rpow_natCast 11 20, ← Real.rpow_mul (by norm_num : (0 : ℝ) ≤ 11)]
    norm_num
  rw [← h2, ← h3]
  exact Real.rpow_le_rpow (by positivity) (by norm_num) (by norm_num)

/-- The required-stamina table at round 6 is at least 17. -/
theorem required_stamina_six_ge : 17 ≤ required_stamina_for_round 6 := by
  unfold required_stamina_for_round
  rw [if_neg (by norm_num)]
  have hc : (((6 : ℤ) : ℝ)) = (6 : ℝ) := by norm_num
  rw [hc]
  set z := pyRoundR ((1.3081954270168985 : ℝ) * (6 : ℝ) ^ (1.4465293529691468 : ℝ)) with hz
  have h1 : (1.3081954270168985 : ℝ) * 13 ≤
      (1.3081954270168985 : ℝ) * (6 : ℝ) ^ (1.4465293529691468 : ℝ) :=
    mul_le_mul_of_nonneg_left six_rpow_lb (by norm_num)
  have h2 := sub_half_le_pyRoundR
    ((1.3081954270168985 : ℝ) * (6 : ℝ) ^ (1.4465293529691468 : ℝ))
  rw [← hz] at h2
  have h3 : (16 : ℝ) < (z : ℤ) := by linarith
  have h4 : (16 : ℤ) < z := by exact_mod_cast h3
  have h5 : (17 : ℤ) ≤ z := by omega
  exact le_trans h5 (le_max_right 0 z)

/-- The required-stamina table at round 5 is at most 14. -/
theorem required_stamina_five_le : required_stamina_for_round 5 ≤ 14 := by
  unfold required_stamina_for_round
  rw [if_neg (by norm_num)]
  have hc : (((5 : ℤ) : ℝ)) = (5 : ℝ) := by norm_num
  rw [hc]
  set z := pyRoundR ((1.3081954270168985 : ℝ) * (5 : ℝ) ^ (1.4465293529691468 : ℝ)) with hz
  have h1 : (1.3081954270168985 : ℝ) * (5 : ℝ) ^ (1.4465293529691468 : ℝ) ≤
      (1.3081954270168985 : ℝ) * 11 :=
    mul_le_mul_of_nonneg_left five_rpow_ub (by norm_num)
  have h2 := pyRoundR_le_add_half
    ((1.3081954270168985 : ℝ) * (5 : ℝ) ^ (1.4465293529691468 : ℝ))
  rw [← hz] at h2
  have h3 : ((z : ℤ) : ℝ) < 15 := by linarith
  have h4 : z < (15 : ℤ) := by exact_mod_cast h3
  exact max_le (by norm_num) (by omega)

/-- The end-of-round stamina drain at round 6 is strictly positive. -/
theorem stamina_drain_six_pos : 1 ≤ stamina_drain 6 := by
  unfold stamina_drain
  have h6 := required_stamina_six_ge
  have h5 := required_stamina_five_le
  have hd : (3 : ℤ) ≤ required_stamina_for_round 6 -
      required_stamina_for_round (6 - 1) := by
    norm_num
    omega
  exact le_trans (le_trans (by omega) hd) (le_max_right 0 _)

/-- leveling.py, xp_to_next: the max(1, ...) floor means no level ever
requires zero (or negative) experience. -/
theorem xp_to_next_pos (level : ℤ) : 1 ≤ xp_to_next level := by
  unfold xp_to_next
  exact le_max_left _ _

/-- The level-up loop advances the level by exactly the number of
iterations, stops with the remaining experience strictly below the new
level's requirement, and consumes exactly the sum of the requirements of
the levels it passed through. -/
theorem levelLoop_spec (level exp : ℤ) :
    (levelLoop level exp).1 = level + ((levelLoop level exp).2.2 : ℤ) ∧
    (levelLoop level exp).2.1 < xp_to_next (levelLoop level exp).1 ∧
    (levelLoop level exp).2.1 +
      ∑ i ∈ Finset.range (levelLoop level exp).2.2,
        xp_to_next (level + (i : ℤ)) = exp := by
  induction level, exp using levelLoop.induct with
  | case1 level exp h =>
    rw [levelLoop, dif_pos h]
    simpa using h
  | case2 level exp h ih =>
    obtain ⟨ih1, ih2, ih3⟩ := ih
    rw [levelLoop, dif_neg h]
    dsimp only
    refine ⟨?_, ih2, ?_⟩
    · push_cast
      omega
    · have hsum : (∑ i ∈ Finset.range
            ((levelLoop (level + 1) (exp - xp_to_next level)).2.2 + 1),
          xp_to_next (level + (i : ℤ))) =
          xp_to_next level + ∑ i ∈ Finset.range
            (levelLoop (level + 1) (exp - xp_to_next level)).2.2,
          xp_to_next (level + 1 + (i : ℤ)) := by
        rw [Finset.sum_range_succ']
        simp only [Nat.cast_zero, add_zero, Nat.cast_add, Nat.cast_one]
        rw [add_comm]
        congr 1
        refine Finset.sum_congr rfl fun i _ => ?_
        congr 1
        ring
      rw [hsum]
      omega

/-- The fueled level-up loop succeeds — and agrees with the loop — once
the fuel exceeds the remaining experience, because each iteration
consumes at least one experience point. -/
theorem levelLoopFuel_complete (fuel : ℕ) :
    ∀ level exp : ℤ, exp.toNat < fuel →
      levelLoopFuel fuel level exp = some (levelLoop level exp) := by
  induction fuel with
  | zero =>
    intro level exp h
    omega
  | succ n ih =>
    intro level exp h
    by_cases hx : exp < xp_to_next level
    · rw [levelLoopFuel, if_pos hx, levelLoop, dif_pos hx]
    · have h1 : 1 ≤ xp_to_next level := xp_to_next_pos level
      have h2 : (exp - xp_to_next level).toNat < n := by omega
      rw [levelLoopFuel, if_neg hx, ih _ _ h2]
      conv_rhs => rw [levelLoop, dif_neg hx]

/-- apply_experience only touches experience, level and stat_points:
the health and vitality fields pass through unchanged. -/
theorem apply_experience_preserves_health (g : Gladiator) (amount : ℤ) :
    (apply_experience g amount).1.currentHealth = g.currentHealth ∧
    (apply_experience g amount).1.maxHealth = g.maxHealth ∧
    (apply_experience g amount).1.vitality = g.vitality := by
  unfold apply_experience
  by_cases h : amount ≤ 0
  · rw [if_pos h]
    exact ⟨rfl, rfl, rfl⟩
  · rw [if_neg h]
    dsimp only
    split
    · exact ⟨rfl, rfl, rfl⟩
    · exact ⟨rfl, rfl, rfl⟩

/-- The stamina drain never changes the round number of the round_info. -/
theorem drain_round_eq (s : CombatState) (ri : RoundInfo) :
    (drain_stamina_end_of_round s ri).2.1.round = ri.round := by
  unfold drain_stamina_end_of_round
  dsimp only
  split
  · rfl
  · split
    · rfl
    · rfl

/-- Every exit of execute_round reports the incremented round number. -/
theorem execute_round_round_eq (s : CombatState) (d : RoundDraws) :
    (execute_round s d).2.round = s.round + 1 := by
  unfold execute_round
  dsimp only
  repeat' first
    | rfl
    | (dsimp only; rw [drain_round_eq])
    | split

/-- An Option Side takes exactly one of the three values none,
some player, some opponent. -/
theorem option_side_trichotomy (o : Option Side) :
    o = none ∨ o = some Side.player ∨ o = some Side.opponent := by
  rcases o with _ | sd
  · exact Or.inl rfl
  · rcases sd
    · exact Or.inr (Or.inl rfl)
    · exact Or.inr (Or.inr rfl)

/-- When the stamina drain declares a winner that the incoming round_info
did not already carry, the loser's drained session pool is at 0. -/
theorem drain_winner_cases (s : CombatState) (ri : RoundInfo) :
    ((drain_stamina_end_of_round s ri).2.1.winner = some Side.player →
      ri.winner = some Side.player ∨
        (drain_stamina_end_of_round s ri).1.opponent_stamina ≤ 0) ∧
    ((drain_stamina_end_of_round s ri).2.1.winner = some Side.opponent →
      ri.winner = some Side.opponent ∨
        (drain_stamina_end_of_round s ri).1.player_stamina ≤ 0) := by
  unfold drain_stamina_end_of_round
  dsimp only
  split
  · rename_i hps
    constructor
    · intro hw
      simp at hw
    · intro _
      exact Or.inr hps
  · split
    · rename_i hos
      constructor
      · intro _
        exact Or.inr hos
      · intro hw
        simp at hw
    · constructor
      · intro hw
        exact Or.inl hw
      · intro hw
        exact Or.inl hw

/-- C1: the claim computes the forced-critical damage for strength 30,
weaponskill 100 vs dodge 1 (multiplier 1.0, crit roll 1) as
floor(30*0.088*1.0) * 1.5 truncated = 3; the code instead rounds the base
damage before the critical multiplier, so calculate_attack_damage returns
damage 4 (critical true), not 3. -/
theorem c1_counterexample :
    pyTrunc (((⌊(30 : ℚ) * (0.088 : ℚ) * 1⌋ : ℤ) : ℚ) * (1.5 : ℚ)) = 3 ∧
    calculate_attack_damage atkC1 defC1 1 0 1 = (4, true) ∧
    ¬ ((calculate_attack_damage atkC1 defC1 1 0 1).1 = 3) := by
  refine ⟨?_, ?_, ?_⟩ <;>
    norm_num [calculate_attack_damage, atkC1, defC1, pyRound, pyTrunc,
      Int.floor_eq_iff, round_eq, max_def, min_def]

/-- C1 (amended): with strength 30, weaponskill 100 vs dodge 1, multiplier
forced to 1.0 and crit roll forced to 1, calculate_attack_damage returns
the critical flag true and damage int(round(30*0.088*1.0) * 1.5) = 4:
the base damage is rounded (half to even), multiplied by 1.5 and
truncated. -/
theorem c1_crit_damage :
    calculate_attack_damage atkC1 defC1 1 0 1 = (4, true) ∧
    (calculate_attack_damage atkC1 defC1 1 0 1).1 =
      pyTrunc ((pyRound ((30 : ℚ) * (0.088 : ℚ) * 1) : ℚ) * (1.5 : ℚ)) := by
  refine ⟨?_, ?_⟩ <;>
    norm_num [calculate_attack_damage, atkC1, defC1, pyRound, pyTrunc,
      Int.floor_eq_iff, round_eq, max_def, min_def]

/-- C3: the claim that 0 <= currentHealth always holds after a mutation
fails on take_damage, which subtracts without clamping: a combatant at
3 of 10 health taking 5 damage ends at -2. -/
theorem c3_counterexample :
    (chC3.take_damage 5).1.currentHealth = -2 ∧
    ¬ (0 ≤ (chC3.take_damage 5).1.currentHealth) := by
  refine ⟨rfl, ?_⟩
  norm_num [Character.take_damage, chC3]

/-- C3 (amended): from a valid state (0 <= currentHealth <= maxHealth)
and non-negative arguments, heal keeps both bounds and take_damage keeps
the upper bound; neither touches maxHealth. The lower bound is NOT
maintained by take_damage (the health field may go negative; only the
alive predicate treats <= 0 as dead). -/
theorem c3_health_bounds (c : Character) (damage amount : ℤ)
    (h0 : 0 ≤ c.currentHealth) (h1 : c.currentHealth ≤ c.maxHealth)
    (hd : 0 ≤ damage) (ha : 0 ≤ amount) :
    (c.take_damage damage).1.currentHealth ≤ (c.take_damage damage).1.maxHealth ∧
    (c.take_damage damage).1.maxHealth = c.maxHealth ∧
    0 ≤ (c.heal amount).currentHealth ∧
    (c.heal amount).currentHealth ≤ (c.heal amount).maxHealth ∧
    (c.heal amount).maxHealth = c.maxHealth := by
  unfold Character.take_damage Character.heal
  dsimp only
  refine ⟨by omega, rfl, by omega, by omega, rfl⟩

/-- C3 witness: the bounds at a concrete combatant (5 of 10 health) taking
2 damage and healing 3. -/
theorem c3_witness :
    (chC3w.take_damage 2).1.currentHealth ≤ (chC3w.take_damage 2).1.maxHealth ∧
    (chC3w.take_damage 2).1.maxHealth = chC3w.maxHealth ∧
    0 ≤ (chC3w.heal 3).currentHealth ∧
    (chC3w.heal 3).currentHealth ≤ (chC3w.heal 3).maxHealth ∧
    (chC3w.heal 3).maxHealth = chC3w.maxHealth :=
  c3_health_bounds chC3w 2 3 (by norm_num [chC3w]) (by norm_num [chC3w])
    (by norm_num) (by norm_num)

/-- C8: apply_experience with amount = 0 or negative leaves level,
experience and stat_points unchanged and reports zero levels gained with
the unchanged level's requirement. -/
theorem c8_nonpositive_noop (g : Gladiator) (amount : ℤ) (h : amount ≤ 0) :
    (apply_experience g amount).1.level = g.level ∧
    (apply_experience g amount).1.experience = g.experience ∧
    (apply_experience g amount).1.stat_points = g.stat_points ∧
    (apply_experience g amount).2.levels_gained = 0 ∧
    (apply_experience g amount).2.xp_to_next = xp_to_next g.level := by
  unfold apply_experience
  rw [if_pos h]
  exact ⟨rfl, rfl, rfl, rfl, rfl⟩

/-- C8 witness: the no-op at a concrete gladiator and amount -5. -/
theorem c8_witness :
    (apply_experience gC5 (-5)).1.level = gC5.level ∧
    (apply_experience gC5 (-5)).1.experience = gC5.experience ∧
    (apply_experience gC5 (-5)).1.stat_points = gC5.stat_points ∧
    (apply_experience gC5 (-5)).2.levels_gained = 0 ∧
    (apply_experience gC5 (-5)).2.xp_to_next = xp_to_next gC5.level :=
  c8_nonpositive_noop gC5 (-5) (by norm_num)

/-- C9: the per-round stamina requirement is non-decreasing in the round
number for rounds >= 1 and is exactly 0 at rounds 1 and 2. -/
theorem c9_required_stamina_monotone (n1 n2 : ℤ) (h1 : 1 ≤ n1) (h2 : n1 ≤ n2) :
    required_stamina_for_round n1 ≤ required_stamina_for_round n2 ∧
    required_stamina_for_round 1 = 0 ∧
    required_stamina_for_round 2 = 0 := by
  refine ⟨?_, by unfold required_stamina_for_round; norm_num,
    by unfold required_stamina_for_round; norm_num⟩
  unfold required_stamina_for_round
  by_cases hn2 : n2 ≤ 2
  · rw [if_pos (by omega : n1 ≤ 2), if_pos hn2]
  · rw [if_neg hn2]
    by_cases hn1 : n1 ≤ 2
    · rw [if_pos hn1]
      exact le_max_left 0 _
    · rw [if_neg hn1]
      refine max_le_max le_rfl (pyRoundR_mono ?_)
      refine mul_le_mul_of_nonneg_left ?_ (by norm_num)
      refine Real.rpow_le_rpow ?_ ?_ (by norm_num)
      · exact_mod_cast (by omega : (0 : ℤ) ≤ n1)
      · exact_mod_cast h2

/-- C9 witness: monotonicity and the zero values at rounds 1 and 2. -/
theorem c9_witness :
    required_stamina_for_round 1 ≤ required_stamina_for_round 2 ∧
    required_stamina_for_round 1 = 0 ∧
    required_stamina_for_round 2 = 0 :=
  c9_required_stamina_monotone 1 2 (by norm_num) (by norm_num)

/-- C10: the level-up loop terminates for every starting progression state
and every experience amount: xp_to_next is always at least 1, so each
iteration strictly decreases the remaining experience, and fuel one more
than the remaining experience always suffices for the fueled loop to
finish and agree with the loop. -/
theorem c10_level_loop_terminates (level exp amount : ℤ)
    (hl : 1 ≤ level) (he : 0 ≤ exp) :
    (∀ l : ℤ, 1 ≤ xp_to_next l) ∧
    (∀ l e : ℤ, xp_to_next l ≤ e → e - xp_to_next l < e) ∧
    levelLoopFuel ((exp + amount).toNat + 1) level (exp + amount) =
      some (levelLoop level (exp + amount)) := by
  refine ⟨xp_to_next_pos, ?_, ?_⟩
  · intro l e hle
    have := xp_to_next_pos l
    omega
  · exact levelLoopFuel_complete _ _ _ (by omega)

/-- C10 witness: termination of the loop at level 1 with 0 experience and
an incoming amount of 300. -/
theorem c10_witness :
    (∀ l : ℤ, 1 ≤ xp_to_next l) ∧
    (∀ l e : ℤ, xp_to_next l ≤ e → e - xp_to_next l < e) ∧
    levelLoopFuel (((0 : ℤ) + 300).toNat + 1) 1 ((0 : ℤ) + 300) =
      some (levelLoop 1 ((0 : ℤ) + 300)) :=
  c10_level_loop_terminates 1 0 300 (by norm_num) (by norm_num)

/-- C5: for every positive amount, apply_experience processes every level
threshold crossed in the single call: the level advances by exactly
levels_gained, exactly levels_gained * 20 stat points are granted, the
returned xp_to_next is that of the new level, the remaining experience is
strictly below the new level's requirement, the experience ledger balances
(remaining + the sum of the crossed requirements = old experience +
amount), and in particular three thresholds crossed grant exactly 60
stat points. -/
theorem c5_apply_experience_levels (g : Gladiator) (amount : ℤ)
    (h : 0 < amount) :
    (apply_experience g amount).1.level =
      g.level + (apply_experience g amount).2.levels_gained ∧
    0 ≤ (apply_experience g amount).2.levels_gained ∧
    (apply_experience g amount).1.stat_points =
      g.stat_points + (apply_experience g amount).2.levels_gained * 20 ∧
    (apply_experience g amount).2.xp_to_next =
      xp_to_next (apply_experience g amount).1.level ∧
    (apply_experience g amount).1.experience <
      xp_to_next (apply_experience g amount).1.level ∧
    (apply_experience g amount).1.experience +
      ∑ i ∈ Finset.range ((apply_experience g amount).2.levels_gained).toNat,
        xp_to_next (g.level + (i : ℤ)) = g.experience + amount ∧
    ((apply_experience g amount).2.levels_gained = 3 →
      (apply_experience g amount).1.stat_points = g.stat_points + 60) := by
  obtain ⟨hs1, hs2, hs3⟩ := levelLoop_spec g.level (g.experience + amount)
  unfold apply_experience
  rw [if_neg (by omega : ¬ amount ≤ 0)]
  dsimp only
  have htn : (((levelLoop g.level (g.experience + amount)).2.2 : ℤ)).toNat =
      (levelLoop g.level (g.experience + amount)).2.2 := Int.toNat_natCast _
  split
  · dsimp only
    refine ⟨by omega, by omega, rfl, rfl, hs2, ?_, ?_⟩
    · rw [htn]
      exact hs3
    · intro h3
      omega
  · rename_i hk
    dsimp only
    refine ⟨by omega, by omega, by push_cast; omega, rfl, hs2, ?_, ?_⟩
    · rw [htn]
      exact hs3
    · intro h3
      omega

/-- C5 witness: the progression facts at a concrete level-1 gladiator
receiving 600 experience. -/
theorem c5_witness :
    (apply_experience gC5 600).1.level =
      gC5.level + (apply_experience gC5 600).2.levels_gained ∧
    0 ≤ (apply_experience gC5 600).2.levels_gained ∧
    (apply_experience gC5 600).1.stat_points =
      gC5.stat_points + (apply_experience gC5 600).2.levels_gained * 20 ∧
    (apply_experience gC5 600).2.xp_to_next =
      xp_to_next (apply_experience gC5 600).1.level ∧
    (apply_experience gC5 600).1.experience <
      xp_to_next (apply_experience gC5 600).1.level ∧
    (apply_experience gC5 600).1.experience +
      ∑ i ∈ Finset.range ((apply_experience gC5 600).2.levels_gained).toNat,
        xp_to_next (gC5.level + (i : ℤ)) = gC5.experience + 600 ∧
    ((apply_experience gC5 600).2.levels_gained = 3 →
      (apply_experience gC5 600).1.stat_points = gC5.stat_points + 60) :=
  c5_apply_experience_levels gC5 600 (by norm_num)

/-- C6: whenever the end-of-round stamina drain takes both session pools
to <= 0 in the same round, the player-side pool is checked first, so the
player is declared the exhausted loser and the opponent wins. -/
theorem c6_exhaustion_tiebreak (s : CombatState) (ri : RoundInfo)
    (hp : s.player_stamina ≤ stamina_drain s.round)
    (ho : s.opponent_stamina ≤ stamina_drain s.round) :
    (drain_stamina_end_of_round s ri).2.1.winner = some Side.opponent ∧
    (drain_stamina_end_of_round s ri).2.2 = true ∧
    (drain_stamina_end_of_round s ri).1.player_stamina ≤ 0 ∧
    (drain_stamina_end_of_round s ri).1.opponent_stamina ≤ 0 := by
  unfold drain_stamina_end_of_round
  dsimp only
  rw [if_pos (by omega : max 0 (s.player_stamina - stamina_drain s.round) ≤ 0)]
  refine ⟨rfl, rfl, ?_, ?_⟩ <;> (dsimp only; omega)

/-- C6 witness: at round 6 the drain is strictly positive, so two
combatants whose pools are both at 1 exhaust simultaneously and the
opponent is declared the winner. -/
theorem c6_witness :
    (1 : ℤ) ≤ stamina_drain 6 ∧
    (drain_stamina_end_of_round sC6 riC6).2.1.winner = some Side.opponent ∧
    (drain_stamina_end_of_round sC6 riC6).2.2 = true := by
  have hd := stamina_drain_six_pos
  have h := c6_exhaustion_tiebreak sC6 riC6 (by simpa [sC6] using hd)
    (by simpa [sC6] using hd)
  exact ⟨hd, h.1, h.2.1⟩

/-- C2: the claim that resolving a round on a terminal session signals an
error fails on the code: after a round in which the opponent was killed
(winner = player), the session is still accepted by POST /combat/round,
which resolves another ordinary round (round 2, winner player again)
instead of signaling an error. -/
theorem c2_counterexample :
    (execute_round sC2 dC2).2.winner = some Side.player ∧
    (execute_combat_round (some (execute_round sC2 dC2).1) dC2).isOk = true ∧
    ((execute_combat_round (some (execute_round sC2 dC2).1) dC2).toOption.map
      fun p => (p.2.round, p.2.winner)) = some ((2 : ℤ), some Side.player) := by
  refine ⟨?_, ?_, ?_⟩ <;>
    norm_num [execute_combat_round, execute_round, sC2, dC2, pC2, oC2,
      calculate_attack_damage, pyRound, pyTrunc, Character.take_damage,
      Character.is_alive, Int.floor_eq_iff, round_eq, max_def, min_def,
      writeBack, Except.isOk, Except.toBool, Except.toOption]

/-- C2 (amended): POST /combat/round signals an error only when no session
exists; with any live session — terminal or not — it resolves another
ordinary round and returns its result with the incremented round number. -/
theorem c2_terminal_not_rejected (s : CombatState) (d : RoundDraws) :
    execute_combat_round none d =
      .error ("No active combat. Please start a new combat.") ∧
    (execute_combat_round (some s) d).isOk = true ∧
    ((execute_combat_round (some s) d).toOption.map fun p => p.2.round) =
      some (s.round + 1) := by
  refine ⟨rfl, rfl, ?_⟩
  unfold execute_combat_round
  dsimp only
  simp [Except.toOption, execute_round_round_eq]

/-- C4: the claim that every vitality-raising operation preserves the
absolute health gap fails on train_gladiator, which sets currentHealth to
the recomputed maxHealth (a full heal): a gladiator at 5 of 16 health
(gap 11) ends training at 20 of 20 (gap 0). -/
theorem c4_counterexample :
    ((train_gladiator gC4).map fun g => (g.currentHealth, g.maxHealth)) =
      Except.ok ((20 : ℤ), (20 : ℤ)) ∧
    ((train_gladiator gC4).map fun g => g.maxHealth - g.currentHealth) =
      Except.ok 0 ∧
    gC4.maxHealth - gC4.currentHealth = 11 ∧
    ¬ ((0 : ℤ) = 11) := by
  refine ⟨?_, ?_, by norm_num [gC4], by norm_num⟩ <;>
  · unfold train_gladiator
    rw [if_neg (by norm_num [gC4])]
    dsimp only
    dsimp only [Except.map]
    rw [(apply_experience_preserves_health _ 10).1,
      (apply_experience_preserves_health _ 10).2.1]
    dsimp only
    norm_num [gC4, Int.floor_eq_iff]

/-- C4 (amended): the stat-allocation endpoint does recompute maxHealth as
1 + floor(vitality * 1.5) and shifts currentHealth by exactly the
maxHealth delta (preserving the absolute gap, and never decreasing
currentHealth when the stored maxHealth was consistent with vitality);
train_gladiator instead recomputes maxHealth and sets currentHealth equal
to it (full heal), not gap-preserving. -/
theorem c4_vitality_gap :
    (∀ (g : Gladiator) (a : StatAllocation) (g' : Gladiator),
      allocate_stat_points g a = .ok g' → 0 < a.health →
      g'.maxHealth = 1 + ⌊((g.vitality + a.health : ℤ) : ℚ) * (1.5 : ℚ)⌋ ∧
      g'.currentHealth - g.currentHealth = g'.maxHealth - g.maxHealth ∧
      (g.maxHealth ≤ 1 + ⌊((g.vitality : ℤ) : ℚ) * (1.5 : ℚ)⌋ →
        g.currentHealth ≤ g'.currentHealth)) ∧
    (∀ g g' : Gladiator, train_gladiator g = .ok g' →
      g'.currentHealth = g'.maxHealth ∧
      g'.maxHealth = 1 + ⌊((g.vitality + 3 : ℤ) : ℚ) * (1.5 : ℚ)⌋) := by
  constructor
  · intro g a g' h hh
    unfold allocate_stat_points at h
    split at h
    · exact absurd h (by simp)
    · dsimp only at h
      split at h
      · exact absurd h (by simp)
      · split at h
        · exact absurd h (by simp)
        · rw [Except.ok.injEq] at h
          subst h
          dsimp only
          have key : ⌊((g.vitality : ℤ) : ℚ) * (1.5 : ℚ)⌋ + 1 ≤
              ⌊((g.vitality + a.health : ℤ) : ℚ) * (1.5 : ℚ)⌋ := by
            have h1 : (1 : ℚ) ≤ (a.health : ℚ) := by exact_mod_cast hh
            have h15 : ((g.vitality : ℤ) : ℚ) * (1.5 : ℚ) + (1 : ℤ) ≤
                ((g.vitality + a.health : ℤ) : ℚ) * (1.5 : ℚ) := by
              push_cast
              linarith
            calc ⌊((g.vitality : ℤ) : ℚ) * (1.5 : ℚ)⌋ + 1
                = ⌊((g.vitality : ℤ) : ℚ) * (1.5 : ℚ) + (1 : ℤ)⌋ :=
                  (Int.floor_add_int _ _).symm
              _ ≤ _ := Int.floor_le_floor h15
          refine ⟨rfl, by omega, fun hcons => by omega⟩
  · intro g g' h
    unfold train_gladiator at h
    split at h
    · exact absurd h (by simp)
    · rw [Except.ok.injEq] at h
      subst h
      rw [(apply_experience_preserves_health _ 10).1,
        (apply_experience_preserves_health _ 10).2.1]
      exact ⟨rfl, rfl⟩

/-- A concrete successful health allocation, showing the allocation path of
the gap-preservation theorem is reachable: 2 health points on a 16-of-16
gladiator with vitality 10 yield vitality 12, maxHealth 19, currentHealth
19 and 3 unspent points. -/
theorem allocate_stat_points_example :
    ((allocate_stat_points gC4w aC4w).map fun g =>
      (g.currentHealth, g.maxHealth, g.vitality, g.stat_points)) =
      Except.ok ((19 : ℤ), (19 : ℤ), (12 : ℤ), (3 : ℤ)) := by
  norm_num [allocate_stat_points, gC4w, aC4w, Int.floor_eq_iff, Except.map]

/-- C7: every round resolution returns exactly one of no-winner,
player-wins, opponent-wins; and whenever a winner is reported, the losing
combatant in the returned session has currentHealth <= 0 or a session
stamina pool <= 0. -/
theorem c7_round_outcome (s : CombatState) (d : RoundDraws) :
    ((execute_round s d).2.winner = none ∨
      (execute_round s d).2.winner = some Side.player ∨
      (execute_round s d).2.winner = some Side.opponent) ∧
    ((execute_round s d).2.winner = some Side.player →
      (execute_round s d).1.opponent.currentHealth ≤ 0 ∨
        (execute_round s d).1.opponent_stamina ≤ 0) ∧
    ((execute_round s d).2.winner = some Side.opponent →
      (execute_round s d).1.player.currentHealth ≤ 0 ∨
        (execute_round s d).1.player_stamina ≤ 0) := by
  refine ⟨option_side_trichotomy _, ?_⟩
  unfold execute_round writeBack
  dsimp only
  repeat' split
  all_goals refine ⟨fun hw => ?_, fun hw => ?_⟩
  all_goals first
    | (simp at hw
       done)
    | (refine Or.inr (Or.resolve_left ((drain_winner_cases _ _).1 hw) ?_)
       simp
       done)
    | (refine Or.inr (Or.resolve_left ((drain_winner_cases _ _).2 hw) ?_)
       simp
       done)
    | (left
       dsimp only
       simp_all [Character.is_alive, Character.take_damage]
       done)
